import Mathlib

/-!
Shallow embedding of `src/findtext.py` (the FindText quota-enforcement web
application) and proofs about its quota gate, notification sender and the
HTTP handlers.

The Firestore document for a user is modelled as a record of optional fields
(the Python code reads fields through `dict.get` with defaults, so fields may
be absent).  The server timestamp, the availability of the store and the
outcome of the outbound email call are inputs of the model, since they are
environmental effects.  Exceptions raised inside the transactional body are
modelled with `Except`.
-/

namespace FindText

/-- MAX_ATTEMPTS = 3 (configuration constant in the source). -/
def MAX_ATTEMPTS : Nat := 3

/-- One Firestore document of the `user_usage` collection.  Every field is
optional because the source reads each through `dict.get` with a default
(`attempts` defaults to 0, `approved` to False). -/
structure UsageDoc where
  attempts : Option Nat
  approved : Option Bool
  last_use : Option Nat
deriving Repr, DecidableEq

/-- An exception raised by the Python transaction body. -/
inductive PyError where
  /-- The local variable `data` is referenced before assignment: when the
  snapshot does not exist only `attempts` is bound, yet the code then
  evaluates `data.get` unconditionally. -/
  | nameError
deriving Repr, DecidableEq

/-- The body of `update_in_transaction` (src/findtext.py lines 66-86).  Input
is the current document for the user (`none` when the snapshot does not
exist) and the server timestamp used for `firestore.SERVER_TIMESTAMP`.
Output is the returned pair `(allowed, attempts)` together with the document
after the transaction, or the exception the body raises.  The
`merge=True` write keeps the fields it does not set. -/
def update_in_transaction (now : Nat) (doc : Option UsageDoc) :
    Except PyError ((Bool × Nat) × Option UsageDoc) :=
  match doc with
  | some data =>
    let attempts := data.attempts.getD 0
    if data.approved.getD false then
      .ok ((true, 0), some data)
    else if attempts < MAX_ATTEMPTS then
      let new_attempts := attempts + 1
      .ok ((true, new_attempts),
           some { data with attempts := some new_attempts, last_use := some now })
    else
      .ok ((false, attempts), some data)
  | none =>
    -- snapshot.exists is false, so the source binds `attempts = 0` but never
    -- binds `data`; the following `data.get` then raises NameError.
    .error .nameError

/-- Result of one call to `check_and_update_usage`: the boolean the function
returns, the store contents after the call, and how many times
`send_permission_email` was invoked during the call (the source discards the
boolean that invocation returns). -/
structure GateResult where
  allowed : Bool
  store : Option UsageDoc
  emailsSent : Nat
deriving Repr, DecidableEq

/-- `check_and_update_usage` (src/findtext.py lines 59-99).  `storeFail` is
true when the Firestore client raises (store unavailable or the transaction
cannot commit); any exception, including one raised by the transaction body
itself, is caught by the `except` clause and the function returns False. -/
def check_and_update_usage (storeFail : Bool) (now : Nat) (doc : Option UsageDoc) :
    GateResult :=
  if storeFail then
    { allowed := false, store := doc, emailsSent := 0 }
  else
    match update_in_transaction now doc with
    | .ok ((allowed, attempts), newDoc) =>
      { allowed := allowed
        store := newDoc
        emailsSent := if !allowed && attempts == MAX_ATTEMPTS then 1 else 0 }
    | .error _ =>
      { allowed := false, store := doc, emailsSent := 0 }

/-- A sequence of calls to `check_and_update_usage` for one fixed user: each
element of the list gives that call's store availability and server time.
Returns the per-call results in order. -/
def run_calls (doc : Option UsageDoc) : List (Bool × Nat) → List GateResult
  | [] => []
  | (sf, now) :: rest =>
    let r := check_and_update_usage sf now doc
    r :: run_calls r.store rest

/-- The `attempts` value currently stored for a user (absent document or
absent field reads as 0, as `dict.get` does). -/
def storedAttempts : Option UsageDoc → Nat
  | none => 0
  | some d => d.attempts.getD 0

/-- The stored documents visited by a sequence of calls, starting state
included. -/
def store_trajectory (doc : Option UsageDoc) : List (Bool × Nat) → List (Option UsageDoc)
  | [] => [doc]
  | (sf, now) :: rest =>
    doc :: store_trajectory (check_and_update_usage sf now doc).store rest

/-- ADMIN_EMAIL with its source default (the environment override is not
modelled; no claim depends on the address). -/
def ADMIN_EMAIL : String := "malazjanbeih@gmail.com"

/-- Outcome of the SendGrid provider call, an environmental input of the
model. -/
inductive SendOutcome where
  | sent (statusCode : Nat)
  | raised (err : String)
deriving Repr, DecidableEq

/-- `send_permission_email` (src/findtext.py lines 34-57).  `apiKey` models
the SENDGRID_API_KEY environment variable, `none` when unset; the source
guard `if not SENDGRID_API_KEY` also fires on an empty string.  `outcome`
is what the provider call does when reached; the `try` block turns a raised
provider error into a False return, so the function is total. -/
def send_permission_email (apiKey : Option String) (outcome : SendOutcome)
    (user_id : String) : Bool :=
  if apiKey.getD "" = "" then
    false
  else
    match outcome with
    | .sent _ => true
    | .raised _ => false

/-- The whitespace characters Python str.strip() removes, restricted to the
ASCII range used by the application. -/
def pyIsSpace (c : Char) : Bool :=
  c = ' ' || c = '\t' || c = '\n' || c = '\x0b' || c = '\x0c' || c = '\r'

/-- Python str.strip() with no argument: drop leading and trailing
whitespace. -/
def pyStrip (s : String) : String :=
  String.mk (((s.toList.dropWhile pyIsSpace).reverse.dropWhile pyIsSpace).reverse)

/-- Value of a (most-significant-first) digit list. -/
def digitsVal (cs : List Char) : Nat :=
  cs.foldl (fun a c => a * 10 + (c.toNat - 48)) 0

/-- The rational value mant times ten to the exp: the exact value of a
finite decimal literal. -/
def scaledDecimal (mant : Int) (exp : Int) : Rat :=
  if 0 ≤ exp then mkRat (mant * (10 : Int) ^ exp.toNat) 1
  else mkRat mant ((10 : Nat) ^ (-exp).toNat)

/-- Models the Python builtin float() on finite decimal literals: optional
surrounding whitespace, optional sign, digits with an optional fractional
part, optional decimal exponent.  Returns `none` exactly where Python raises
ValueError.  (The special literals inf and nan have no rational value and do
not occur in the claims.) -/
def pyFloat (s : String) : Option Rat :=
  let cs0 := (pyStrip s).toList
  let signed : Int × List Char :=
    match cs0 with
    | '+' :: rest => (1, rest)
    | '-' :: rest => (-1, rest)
    | _ => (1, cs0)
  let intPart := signed.2.takeWhile Char.isDigit
  let afterInt := signed.2.dropWhile Char.isDigit
  let fractioned : List Char × List Char :=
    match afterInt with
    | '.' :: rest => (rest.takeWhile Char.isDigit, rest.dropWhile Char.isDigit)
    | _ => ([], afterInt)
  let fracPart := fractioned.1
  if intPart.isEmpty && fracPart.isEmpty then none
  else
    let mant : Int := signed.1 * (digitsVal (intPart ++ fracPart) : Int)
    match fractioned.2 with
    | [] => some (scaledDecimal mant (-(fracPart.length : Int)))
    | c :: rest =>
      if c = 'e' || c = 'E' then
        let esigned : Int × List Char :=
          match rest with
          | '+' :: r => (1, r)
          | '-' :: r => (-1, r)
          | _ => (1, rest)
        let eds := esigned.2.takeWhile Char.isDigit
        let tail := esigned.2.dropWhile Char.isDigit
        if eds.isEmpty || !tail.isEmpty then none
        else some (scaledDecimal mant
          (esigned.1 * (digitsVal eds : Int) - (fracPart.length : Int)))
      else none

/-- Response of the identification handler. -/
inductive IdResponse where
  | idFormError (msg : String)
  | redirectToSearch (user_id : String)
  | limitExceeded (msg : String)
deriving Repr, DecidableEq

/-- The limit-exceeded message rendered by `handle_identification`. -/
def limitMessage : String :=
  "Usage limit (" ++ toString MAX_ATTEMPTS ++
    " tries) exceeded. A request for extended permission has been sent to the administrator (" ++
    ADMIN_EMAIL ++ ")."

/-- One request through the identification handler: its response, the store
afterwards, how many quota-gate calls it made and how many notification
sends those calls attempted. -/
structure IdOutcome where
  response : IdResponse
  store : Option UsageDoc
  gateCalls : Nat
  emailsSent : Nat
deriving Repr, DecidableEq

/-- `handle_identification` (src/findtext.py lines 124-140).  The form field
`user_id` is read with default empty string and stripped; a blank result
re-renders the identification form, otherwise the quota gate decides between
a redirect to the search page and the limit-exceeded error page. -/
def handle_identification (form_user_id : Option String) (storeFail : Bool)
    (now : Nat) (doc : Option UsageDoc) : IdOutcome :=
  let user_id := pyStrip (form_user_id.getD "")
  if user_id = "" then
    { response := .idFormError "Please enter a valid email or mobile number."
      store := doc, gateCalls := 0, emailsSent := 0 }
  else
    let r := check_and_update_usage storeFail now doc
    if r.allowed then
      { response := .redirectToSearch user_id
        store := r.store, gateCalls := 1, emailsSent := r.emailsSent }
    else
      { response := .limitExceeded limitMessage
        store := r.store, gateCalls := 1, emailsSent := r.emailsSent }

/-- The form and file inputs of a `/process_search` request.  `hasDocument`
models whether the key `document` is present in `request.files`. -/
structure SearchForm where
  user_id : Option String
  search_text : Option String
  similarity_threshold : Option String
  hasDocument : Bool
  documentName : String
deriving Repr, DecidableEq

/-- One row of the result list. -/
structure MatchRow where
  text : String
  page : String
  similarity : String
deriving Repr, DecidableEq

/-- `extract_text_from_doc` — a placeholder in the source. -/
def extract_text_from_doc (fileStream fileName : String) : String :=
  "Extracted text placeholder"

/-- `run_semantic_search` — a placeholder in the source. -/
def run_semantic_search (text search_text : String)
    (similarity_threshold : Rat) : List MatchRow :=
  [{ text := "Sample result", page := "N/A", similarity := "0.99" }]

/-- Models the pandas DataFrame.to_html rendering of the result rows; the
claims depend only on which branch produced the table, not on the exact
markup. -/
def renderResultTable (rows : List MatchRow) : String :=
  "<table>" ++
    String.join (rows.map (fun r =>
      "<tr><td>" ++ r.text ++ "</td><td>" ++ r.page ++ "</td><td>" ++
        r.similarity ++ "</td></tr>")) ++
    "</table>"

/-- Response of the search-processing handler: an HTTP 400 error page or the
rendered results view. -/
inductive SearchResponse where
  | badRequest (msg : String)
  | resultsPage (search_text : String) (threshold : Rat) (result_table : String)
deriving Repr, DecidableEq

/-- One request through `process_search`: the response, the value bound to
`similarity_threshold` inside the handler, and whether each collaborator was
invoked. -/
structure SearchOutcome where
  response : SearchResponse
  thresholdUsed : Rat
  analyzerCalled : Bool
  engineCalled : Bool
deriving Repr, DecidableEq

/-- `process_search` (src/findtext.py lines 152-188).  The threshold input is
truthy-tested (None and the empty string fall back to 0.7), then parsed with
float(), ValueError falling back to 0.7.  A missing file or blank stripped
search text returns the 400 error page before either collaborator runs. -/
def process_search (form : SearchForm) (fileStream : String) : SearchOutcome :=
  let search_text := pyStrip (form.search_text.getD "")
  let similarity_threshold : Rat :=
    match form.similarity_threshold with
    | none => mkRat 7 10
    | some s => if s = "" then mkRat 7 10 else (pyFloat s).getD (mkRat 7 10)
  if !form.hasDocument || search_text = "" then
    { response := .badRequest "Please provide a file and search text."
      thresholdUsed := similarity_threshold
      analyzerCalled := false, engineCalled := false }
  else
    let extracted_text := extract_text_from_doc fileStream form.documentName
    let search_results := run_semantic_search extracted_text search_text similarity_threshold
    let result_table :=
      if !search_results.isEmpty then renderResultTable search_results
      else "No matching text found above the similarity threshold."
    { response := .resultsPage search_text similarity_threshold result_table
      thresholdUsed := similarity_threshold
      analyzerCalled := true, engineCalled := true }

/-! ## Theorems about the claims -/

/-- C1: the claim says a user with no prior record is allowed on the first
MAX_ATTEMPTS calls with attempts 1..MAX_ATTEMPTS.  On the code, an absent
snapshot leaves the local variable `data` unbound, so the transaction body
raises NameError on its `data.get` line; the outer handler catches it and
returns False.  Hence every call for a fresh user — the first one included —
is denied, with no write and no notification, refuting the claim at its very
first step. -/
theorem c1_fresh_user_first_call_denied :
    update_in_transaction 1 none = .error .nameError ∧
    check_and_update_usage false 1 none =
      { allowed := false, store := none, emailsSent := 0 } ∧
    (run_calls none [(false, 1), (false, 2), (false, 3), (false, 4)]).map
        GateResult.allowed = [false, false, false, false] :=
  ⟨rfl, rfl, rfl⟩

/-- C2: the claim says the notification fires only on the first denial.
Starting from an existing record with attempts = 0, five calls produce
(allowed, notification attempts) = (t,0),(t,0),(t,0),(f,1),(f,1): the email
is sent on call 4 AND again on call 5, because stored attempts stay equal to
MAX_ATTEMPTS on every later denial, so the guard `attempts == MAX_ATTEMPTS`
keeps firing — contradicting the source's own comment that it captures the
first time the limit is hit. -/
theorem c2_notification_repeats_on_later_denials :
    (run_calls (some { attempts := some 0, approved := some false, last_use := none })
        [(false, 1), (false, 2), (false, 3), (false, 4), (false, 5)]).map
        (fun r => (r.allowed, r.emailsSent)) =
      [(true, 0), (true, 0), (true, 0), (false, 1), (false, 1)] := rfl

/-- C3: for a record whose approved field holds true, the transaction
returns (true, 0), the call is allowed, and the stored document — attempts,
approved and last_use alike — is unchanged (and no notification is
attempted). -/
theorem c3_approved_bypasses_quota (d : UsageDoc) (now : Nat)
    (h : d.approved.getD false = true) :
    update_in_transaction now (some d) = .ok ((true, 0), some d) ∧
    check_and_update_usage false now (some d) =
      { allowed := true, store := some d, emailsSent := 0 } := by
  have h1 : update_in_transaction now (some d) = .ok ((true, 0), some d) := by
    simp [update_in_transaction, h]
  refine ⟨h1, ?_⟩
  simp [check_and_update_usage, h1]

/-- C3 witness: the theorem applied to a concrete approved record. -/
theorem c3_approved_bypasses_quota_witness :
    update_in_transaction 5
        (some { attempts := some 2, approved := some true, last_use := some 1 }) =
      .ok ((true, 0),
        some { attempts := some 2, approved := some true, last_use := some 1 }) ∧
    check_and_update_usage false 5
        (some { attempts := some 2, approved := some true, last_use := some 1 }) =
      { allowed := true
        store := some { attempts := some 2, approved := some true, last_use := some 1 }
        emailsSent := 0 } :=
  c3_approved_bypasses_quota
    { attempts := some 2, approved := some true, last_use := some 1 } 5 (by decide)

/-- C4: when the store client raises, the except clause makes the call
return False; nothing is written and no notification send is attempted. -/
theorem c4_store_failure_fails_closed (now : Nat) (doc : Option UsageDoc) :
    check_and_update_usage true now doc =
      { allowed := false, store := doc, emailsSent := 0 } := rfl

/-- C5: for a non-approved record at or beyond the limit, the transaction
returns (false, attempts) without issuing a write, and the call leaves the
stored document — attempts and last_use included — exactly as it was. -/
theorem c5_denied_call_writes_nothing (d : UsageDoc) (now : Nat)
    (h1 : d.approved.getD false = false) (h2 : MAX_ATTEMPTS ≤ d.attempts.getD 0) :
    update_in_transaction now (some d) = .ok ((false, d.attempts.getD 0), some d) ∧
    (check_and_update_usage false now (some d)).allowed = false ∧
    (check_and_update_usage false now (some d)).store = some d := by
  have hlt : ¬ d.attempts.getD 0 < MAX_ATTEMPTS := Nat.not_lt.mpr h2
  have hr : update_in_transaction now (some d) =
      .ok ((false, d.attempts.getD 0), some d) := by
    simp [update_in_transaction, h1, hlt]
  exact ⟨hr, by simp [check_and_update_usage, hr], by simp [check_and_update_usage, hr]⟩

/-- C5 witness: the theorem applied to a concrete record at the limit. -/
theorem c5_denied_call_writes_nothing_witness :
    update_in_transaction 7
        (some { attempts := some 3, approved := some false, last_use := some 2 }) =
      .ok ((false, 3),
        some { attempts := some 3, approved := some false, last_use := some 2 }) ∧
    (check_and_update_usage false 7
        (some { attempts := some 3, approved := some false, last_use := some 2 })).allowed
      = false ∧
    (check_and_update_usage false 7
        (some { attempts := some 3, approved := some false, last_use := some 2 })).store
      = some { attempts := some 3, approved := some false, last_use := some 2 } :=
  c5_denied_call_writes_nothing
    { attempts := some 3, approved := some false, last_use := some 2 } 7
    (by decide) (by decide)

/-- One gate call moves the stored attempts value monotonically, by at most
one, and keeps it at or below the limit.  Shared step lemma for the
trajectory theorem. -/
theorem storedAttempts_step (sf : Bool) (now : Nat) (doc : Option UsageDoc) :
    storedAttempts doc ≤ storedAttempts (check_and_update_usage sf now doc).store ∧
    storedAttempts (check_and_update_usage sf now doc).store ≤ storedAttempts doc + 1 ∧
    (storedAttempts doc ≤ MAX_ATTEMPTS →
      storedAttempts (check_and_update_usage sf now doc).store ≤ MAX_ATTEMPTS) := by
  cases sf with
  | true => simp [check_and_update_usage]
  | false =>
    cases doc with
    | none => simp [check_and_update_usage, update_in_transaction, storedAttempts]
    | some d =>
      by_cases happ : d.approved.getD false = true
      · simp [check_and_update_usage, update_in_transaction, happ, storedAttempts]
      · by_cases hlt : d.attempts.getD 0 < MAX_ATTEMPTS
        · simp [check_and_update_usage, update_in_transaction, happ, hlt, storedAttempts]
          omega
        · simp [check_and_update_usage, update_in_transaction, happ, hlt, storedAttempts]

/-- The trajectory always starts with the starting document. -/
theorem store_trajectory_cons (doc : Option UsageDoc) (calls : List (Bool × Nat)) :
    ∃ t, store_trajectory doc calls = doc :: t := by
  cases calls with
  | nil => exact ⟨[], rfl⟩
  | cons hd tl =>
    exact ⟨store_trajectory (check_and_update_usage hd.1 hd.2 doc).store tl, rfl⟩

/-- C6: along any sequence of calls starting from a store whose attempts
value does not exceed the limit (a fresh user starts at 0), every visited
store keeps attempts at or below MAX_ATTEMPTS, and between consecutive
states the stored attempts value never decreases and grows by at most 1. -/
theorem c6_attempts_monotone_bounded (doc : Option UsageDoc)
    (calls : List (Bool × Nat)) (h : storedAttempts doc ≤ MAX_ATTEMPTS) :
    (∀ s ∈ store_trajectory doc calls, storedAttempts s ≤ MAX_ATTEMPTS) ∧
    (store_trajectory doc calls).Chain'
      (fun a b => storedAttempts a ≤ storedAttempts b ∧
        storedAttempts b ≤ storedAttempts a + 1) := by
  induction calls generalizing doc with
  | nil =>
    refine ⟨?_, by simp [store_trajectory]⟩
    intro s hs
    simp [store_trajectory] at hs
    simpa [hs] using h
  | cons hd tl ih =>
    obtain ⟨sf, now⟩ := hd
    have hstep := storedAttempts_step sf now doc
    have hnext : storedAttempts (check_and_update_usage sf now doc).store ≤ MAX_ATTEMPTS :=
      hstep.2.2 h
    obtain ⟨ih1, ih2⟩ := ih (check_and_update_usage sf now doc).store hnext
    obtain ⟨t, ht⟩ := store_trajectory_cons (check_and_update_usage sf now doc).store tl
    constructor
    · intro s hs
      simp only [store_trajectory, List.mem_cons] at hs
      rcases hs with rfl | hs
      · exact h
      · exact ih1 s hs
    · show List.Chain' _ (doc :: store_trajectory (check_and_update_usage sf now doc).store tl)
      rw [ht]
      rw [ht] at ih2
      exact List.chain'_cons.mpr ⟨⟨hstep.1, hstep.2.1⟩, ih2⟩

/-- C6 witness: the theorem applied to a concrete record and a sequence that
crosses the limit and keeps being denied. -/
theorem c6_attempts_monotone_bounded_witness :
    (∀ s ∈ store_trajectory (some { attempts := some 0, approved := some false, last_use := none })
        [(false, 1), (false, 2), (true, 3), (false, 4), (false, 5), (false, 6)],
      storedAttempts s ≤ MAX_ATTEMPTS) ∧
    (store_trajectory (some { attempts := some 0, approved := some false, last_use := none })
        [(false, 1), (false, 2), (true, 3), (false, 4), (false, 5), (false, 6)]).Chain'
      (fun a b => storedAttempts a ≤ storedAttempts b ∧
        storedAttempts b ≤ storedAttempts a + 1) :=
  c6_attempts_monotone_bounded
    (some { attempts := some 0, approved := some false, last_use := none })
    [(false, 1), (false, 2), (true, 3), (false, 4), (false, 5), (false, 6)]
    (by decide)

/-- An all-whitespace string strips to the empty string. -/
theorem pyStrip_of_all_space (s : String) (h : s.toList.all pyIsSpace = true) :
    pyStrip s = "" := by
  have h1 : s.toList.dropWhile pyIsSpace = [] := by
    rw [List.dropWhile_eq_nil_iff]
    intro x hx
    exact (List.all_eq_true.mp h) x hx
  unfold pyStrip
  rw [h1]
  rfl

/-- C7: a missing, empty or all-whitespace user_id form field makes the
identification handler re-render the form with an error, call the quota gate
zero times, leave the store untouched and attempt no notification. -/
theorem c7_blank_identifier_no_quota (form_user_id : Option String)
    (storeFail : Bool) (now : Nat) (doc : Option UsageDoc)
    (h : (form_user_id.getD "").toList.all pyIsSpace = true) :
    handle_identification form_user_id storeFail now doc =
      { response := .idFormError "Please enter a valid email or mobile number."
        store := doc, gateCalls := 0, emailsSent := 0 } := by
  have hb : pyStrip (form_user_id.getD "") = "" := pyStrip_of_all_space _ h
  simp [handle_identification, hb]

/-- C7 witness: the theorem applied to an all-whitespace submitted id. -/
theorem c7_blank_identifier_no_quota_witness :
    handle_identification (some "   ") false 9
        (some { attempts := some 1, approved := some false, last_use := some 1 }) =
      { response := .idFormError "Please enter a valid email or mobile number."
        store := some { attempts := some 1, approved := some false, last_use := some 1 }
        gateCalls := 0, emailsSent := 0 } :=
  c7_blank_identifier_no_quota (some "   ") false 9
    (some { attempts := some 1, approved := some false, last_use := some 1 })
    (by decide)

/-- C8: a request with no document file, or whose search text strips to
empty, gets the 400 error page, and neither the analyzer nor the similarity
engine is invoked. -/
theorem c8_missing_inputs_bad_request (form : SearchForm) (fileStream : String)
    (h : form.hasDocument = false ∨ pyStrip (form.search_text.getD "") = "") :
    (process_search form fileStream).response =
      .badRequest "Please provide a file and search text." ∧
    (process_search form fileStream).analyzerCalled = false ∧
    (process_search form fileStream).engineCalled = false := by
  rcases h with h | h
  · refine ⟨?_, ?_, ?_⟩ <;> simp [process_search, h]
  · refine ⟨?_, ?_, ?_⟩ <;> simp [process_search, h]

/-- C8 witness: the theorem applied to a request with a file but blank
search text. -/
theorem c8_missing_inputs_bad_request_witness :
    (process_search
        { user_id := some "a@b.com", search_text := some "  "
          similarity_threshold := some "0.9", hasDocument := true
          documentName := "f.pdf" } "bytes").response =
      .badRequest "Please provide a file and search text." ∧
    (process_search
        { user_id := some "a@b.com", search_text := some "  "
          similarity_threshold := some "0.9", hasDocument := true
          documentName := "f.pdf" } "bytes").analyzerCalled = false ∧
    (process_search
        { user_id := some "a@b.com", search_text := some "  "
          similarity_threshold := some "0.9", hasDocument := true
          documentName := "f.pdf" } "bytes").engineCalled = false :=
  c8_missing_inputs_bad_request
    { user_id := some "a@b.com", search_text := some "  "
      similarity_threshold := some "0.9", hasDocument := true
      documentName := "f.pdf" } "bytes" (Or.inr (by decide))

/-- The threshold bound inside process_search, whichever branch the request
takes. -/
theorem process_search_thresholdUsed (form : SearchForm) (fileStream : String) :
    (process_search form fileStream).thresholdUsed =
      match form.similarity_threshold with
      | none => mkRat 7 10
      | some s => if s = "" then mkRat 7 10 else (pyFloat s).getD (mkRat 7 10) := by
  rcases h : form.similarity_threshold with _ | s <;>
    simp only [process_search, h] <;> split <;> rfl

/-- C9: the threshold used inside the handler is exactly 0.7 when the form
field is missing, empty, or fails to parse as a float, and the parsed value
otherwise. -/
theorem c9_threshold_fallback (form : SearchForm) (fileStream : String) :
    (form.similarity_threshold = none →
      (process_search form fileStream).thresholdUsed = mkRat 7 10) ∧
    (form.similarity_threshold = some "" →
      (process_search form fileStream).thresholdUsed = mkRat 7 10) ∧
    (∀ s, form.similarity_threshold = some s → pyFloat s = none →
      (process_search form fileStream).thresholdUsed = mkRat 7 10) ∧
    (∀ s v, form.similarity_threshold = some s → s ≠ "" → pyFloat s = some v →
      (process_search form fileStream).thresholdUsed = v) := by
  have hT := process_search_thresholdUsed form fileStream
  refine ⟨fun h => ?_, fun h => ?_, fun s h hp => ?_, fun s v h hs hp => ?_⟩
  · rw [hT, h]
  · rw [hT, h]
    simp
  · rw [hT, h]
    by_cases he : s = "" <;> simp [he, hp]
  · rw [hT, h]
    simp [hs, hp]

/-- C9 witness: an unparseable threshold falls back to 0.7 and a parseable
one is used verbatim. -/
theorem c9_threshold_fallback_witness :
    (process_search
        { user_id := some "u", search_text := some "q"
          similarity_threshold := some "oops", hasDocument := true
          documentName := "f.pdf" } "bytes").thresholdUsed = mkRat 7 10 ∧
    (process_search
        { user_id := some "u", search_text := some "q"
          similarity_threshold := some "2.5", hasDocument := true
          documentName := "f.pdf" } "bytes").thresholdUsed = mkRat 5 2 := by
  constructor
  · exact (c9_threshold_fallback
      { user_id := some "u", search_text := some "q"
        similarity_threshold := some "oops", hasDocument := true
        documentName := "f.pdf" } "bytes").2.2.1 "oops" rfl (by decide)
  · exact (c9_threshold_fallback
      { user_id := some "u", search_text := some "q"
        similarity_threshold := some "2.5", hasDocument := true
        documentName := "f.pdf" } "bytes").2.2.2 "2.5" (mkRat 5 2) rfl (by decide)
      (by decide)

/-- C10: send_permission_email is a total boolean function of its inputs
(the Python body catches the provider error, so nothing propagates): it
returns false when the credential is absent or empty, false when the send
raises, and true exactly when the credential is present and the send
succeeds. -/
theorem c10_send_email_total_cases (apiKey : Option String) (o : SendOutcome)
    (uid : String) :
    (apiKey.getD "" = "" → send_permission_email apiKey o uid = false) ∧
    (∀ e, send_permission_email apiKey (.raised e) uid = false) ∧
    (send_permission_email apiKey o uid = true ↔
      apiKey.getD "" ≠ "" ∧ ∃ c, o = .sent c) := by
  refine ⟨fun h => by simp [send_permission_email, h], fun e => ?_, ?_⟩
  · by_cases h : apiKey.getD "" = "" <;> simp [send_permission_email, h]
  · by_cases h : apiKey.getD "" = ""
    · simp [send_permission_email, h]
    · cases o with
      | sent c => simp [send_permission_email, h]
      | raised e => simp [send_permission_email, h]

/-- C10 witness: concrete instances of the three cases. -/
theorem c10_send_email_total_cases_witness :
    send_permission_email none (.raised "boom") "a@b.com" = false ∧
    send_permission_email (some "key") (.raised "boom") "a@b.com" = false ∧
    send_permission_email (some "key") (.sent 202) "a@b.com" = true := by
  refine ⟨?_, ?_, ?_⟩
  · exact (c10_send_email_total_cases none (.raised "boom") "a@b.com").1 rfl
  · exact (c10_send_email_total_cases (some "key") (.raised "boom") "a@b.com").2.1 "boom"
  · exact (c10_send_email_total_cases (some "key") (.sent 202) "a@b.com").2.2.mpr
      ⟨by decide, 202, rfl⟩

end FindText
